import Mathlib

/-!
Formal model of Grafana's Slack dashboard-sharing and link-unfurling HTTP
handlers (Go file in `pkg/api`, package `api`): `ShareToSlack`,
`AcknowledgeSlackEvent`, `handleLinkSharedEvent`, `sendUnfurlEvent`,
`getImageURL`, `extractURLInfo` and `renderDashboard`, together with the
request/response data types they use.

External collaborators (dashboard lookup, the render service, JSON
marshaling, `http.NewRequest`, `http.DefaultClient.Do`, body reads) are
passed in as explicit function parameters; a `none`/`.error` result of such
a parameter models the corresponding Go error value.  A nil-pointer
dereference that Go would perform (reading a field of a `nil` request or
response, indexing an empty slice) is modelled by a dedicated `panicked`
outcome constructor.
-/

namespace GrafanaSlack

/-- Slack message-block text node (Go struct `Text`). -/
structure Text where
  Type' : String
  Text : String
deriving DecidableEq, Repr

/-- Slack image accessory (Go struct `ImageAccessory`); never populated by the handlers. -/
structure ImageAccessory where
  Type' : String
  Title : Option GrafanaSlack.Text
  ImageURL : String
  AltText : String
deriving DecidableEq, Repr

/-- Slack action element (Go struct `Element`). -/
structure Element where
  Type' : String
  Text : Option GrafanaSlack.Text
  Style : String
  Value : String
  URL : String
deriving DecidableEq, Repr

/-- Slack layout block (Go struct `Block`); unset Go fields are the zero
values `none`, `""` and `[]`. -/
structure Block where
  Type' : String
  Text : Option GrafanaSlack.Text
  Accessory : Option ImageAccessory
  ImageURL : String
  Title : Option GrafanaSlack.Text
  AltText : String
  Elements : List Element
deriving DecidableEq, Repr

/-- Unfurl card for one shared link (Go struct `Unfurl`). -/
structure Unfurl where
  Blocks : List Block
deriving DecidableEq, Repr

/-- Go `Unfurls = map[string]Unfurl`, modelled as an insertion-ordered
association list whose keys are kept unique by `mapInsert`. -/
abbrev Unfurls := List (String × Unfurl)

/-- Payload POSTed to Slack `chat.unfurl` (Go struct `UnfurlEventPayload`). -/
structure UnfurlEventPayload where
  Channel : String
  TS : String
  Unfurls : GrafanaSlack.Unfurls
deriving DecidableEq, Repr

/-- Body of the share endpoint (Go struct `ShareRequest`). -/
structure ShareRequest where
  ChannelIds : List String
  Message : String
  ImagePreviewUrl : String
  PanelId : String
  DashboardPath : String
deriving DecidableEq, Repr

/-- Payload POSTed to Slack `chat.postMessage` (Go struct `PostMessageRequest`). -/
structure PostMessageRequest where
  Channel : String
  Blocks : List Block
deriving DecidableEq, Repr

/-- One shared link of a `link_shared` event (Go struct `Link`). -/
structure Link where
  URL : String
  Domain : String
deriving DecidableEq, Repr

/-- Inner event of a Slack webhook payload (Go struct `Event`). -/
structure Event where
  Type' : String
  User : String
  Channel : String
  MessageTS : String
  Links : List Link
  Source : String
  UnfurlID : String
  IsBotUserMember : Bool
  EventTS : String
deriving DecidableEq, Repr

/-- Go type `Authorization` is declared outside this excerpt and none of its
fields are read by the handlers, so it is modelled as an opaque unit value. -/
abbrev Authorization := Unit

/-- Inbound Slack webhook body (Go struct `EventPayload`). -/
structure EventPayload where
  Token : String
  TeamID : String
  APIAppID : String
  Event : GrafanaSlack.Event
  Type' : String
  EventID : String
  EventTime : Int
  Authorizations : List Authorization
  IsExtSharedChannel : Bool
  EventContext : String
  Challenge : String
deriving DecidableEq, Repr

/-- Body returned for a `url_verification` handshake (Go struct `EventChallengeAck`). -/
structure EventChallengeAck where
  Challenge : String
deriving DecidableEq, Repr

/-- Dashboard metadata returned by the dashboard collaborator; `Title` is the
only field the handlers read. -/
structure Dashboard where
  Title : String
deriving DecidableEq, Repr

/-- The slice of `hs.Cfg` consumed by the handlers. -/
structure Cfg where
  Protocol : String
  HTTPAddr : String
  HTTPPort : String
  SlackToken : String
  RendererCallbackUrl : String
  ServeFromSubPath : Bool
  AppSubURL : String
  RendererConcurrentRequestLimit : Int
deriving DecidableEq, Repr

/-! ## Link Extractor

`extractURLInfo` applies the Go regular expression `.*(\/d\/([^\/]*)\/.*)`
with `FindStringSubmatch` and returns (submatch 1, submatch 2), or two empty
strings when there is no match.  Go's `regexp` package uses leftmost-first
(Perl-style) matching: the overall match starts as early as possible, and the
leading greedy `.*` then pushes the start of capture group 1 as far right as
possible.  `.` matches every character except `'\n'`; the negated class
`[^\/]` also matches `'\n'`.  The functions below implement exactly this
search order: `matchAt` matches `\/d\/([^\/]*)\/.*` at a fixed position,
`tryDesc` is the backtracking of the leading `.*` (group start tried from the
rightmost reachable position downwards) and `searchFrom` advances the overall
match start left to right. -/

/-- Index of the first `'/'` in a character list, if any. -/
def findSlashIdx : List Char → Option Nat
  | [] => none
  | c :: rest => if c = '/' then some 0 else (findSlashIdx rest).map (· + 1)

/-- Match `\/d\/([^\/]*)\/.*` at the head of `l`, returning
(capture group 1, capture group 2) on success.  The greedy `[^\/]*` runs to
the first `'/'` (which must exist), and the trailing greedy `.*` extends to
the end of the input or the first `'\n'`. -/
def matchAt (l : List Char) : Option (List Char × List Char) :=
  match l with
  | c₀ :: c₁ :: c₂ :: rest =>
    if c₀ = '/' ∧ c₁ = 'd' ∧ c₂ = '/' then
      match findSlashIdx rest with
      | none => none
      | some j =>
        some ('/' :: 'd' :: '/' ::
                (rest.take j ++ '/' :: (rest.drop (j + 1)).takeWhile (fun c => c != '\n')),
              rest.take j)
    else none
  | _ => none

/-- Backtracking of the leading greedy `.*`: try a group-1 start at position
`i`, then `i - 1`, ..., for `cnt` attempts, returning the first success. -/
def tryDesc (s : List Char) : Nat → Nat → Option (List Char × List Char)
  | _, 0 => none
  | i, Nat.succ cnt =>
    match matchAt (s.drop i) with
    | some r => some r
    | none => tryDesc s (i - 1) cnt

/-- Leftmost-first search: for each candidate overall start `p` (left to
right), the leading `.*` may consume any run of non-newline characters, so
group 1 is tried from position `p + run` down to `p`. -/
def searchFrom (s : List Char) : Nat → Nat → Option (List Char × List Char)
  | _, 0 => none
  | p, Nat.succ fuel =>
    if s.length < p then none
    else
      match tryDesc s (p + ((s.drop p).takeWhile (fun c => c != '\n')).length)
          (((s.drop p).takeWhile (fun c => c != '\n')).length + 1) with
      | some res => some res
      | none => searchFrom s (p + 1) fuel

/-- `extractURLInfo` on character lists: first match of the full pattern, or
two empty results when `FindStringSubmatch` returns no match. -/
def extractURLInfoL (s : List Char) : List Char × List Char :=
  match searchFrom s 0 (s.length + 1) with
  | some r => r
  | none => ([], [])

/-- Go `extractURLInfo`: returns the render path (submatch 1) and the
dashboard UID (submatch 2). -/
def extractURLInfo (dashboardURL : String) : String × String :=
  (String.mk (extractURLInfoL dashboardURL.data).1,
   String.mk (extractURLInfoL dashboardURL.data).2)

/-! ## Configuration-derived URLs -/

/-- Scheme constant of the `setting` package (outside this excerpt). -/
def HTTPScheme : String := "http"

/-- Scheme constant of the `setting` package (outside this excerpt). -/
def HTTP2Scheme : String := "h2"

/-- Scheme constant of the `setting` package (outside this excerpt). -/
def HTTPSScheme : String := "https"

/-- The `switch protocol` statement shared by `ShareToSlack` and
`getImageURL`: `http` stays `http`, `h2` and `https` become `https`, any
other scheme is left unchanged. -/
def protocolScheme (protocol : String) : String :=
  if protocol = HTTPScheme then "http"
  else if protocol = HTTP2Scheme ∨ protocol = HTTPSScheme then "https"
  else protocol

/-- The `domain` computation shared by `ShareToSlack` and `getImageURL`:
`localhost` unless `HTTPAddr` is a concrete bind address other than
`0.0.0.0`. -/
def hostDomain (httpAddr : String) : String :=
  if httpAddr ≠ "0.0.0.0" then httpAddr else "localhost"

/-- `dashboardLink` of `ShareToSlack`:
`fmt.Sprintf("%s://%s:%s%s", protocol, domain, hs.Cfg.HTTPPort, shareRequest.DashboardPath)`. -/
def dashboardLinkOf (cfg : Cfg) (dashboardPath : String) : String :=
  protocolScheme cfg.Protocol ++ "://" ++ hostDomain cfg.HTTPAddr ++ ":" ++
    cfg.HTTPPort ++ dashboardPath

/-- Go `filepath.Base` (unix separator): strip trailing slashes, then keep the
part after the last slash; `""` gives `"."` and an all-slash path gives `"/"`. -/
def filepathBase (path : String) : String :=
  if path = "" then "."
  else
    let stripped := (path.data.reverse.dropWhile (fun c => c == '/')).reverse
    let base := (stripped.reverse.takeWhile (fun c => c != '/')).reverse
    if base = [] then "/" else String.mk base

/-- Go `getImageURL`: either the configured renderer callback base URL or a
locally composed `protocol://domain:port[subPath]` base, followed by
`public/img/attachments/<imageName>`. -/
def getImageURL (cfg : Cfg) (imageName : String) : String :=
  if cfg.RendererCallbackUrl ≠ "" then
    cfg.RendererCallbackUrl ++ "public/img/attachments" ++ "/" ++ imageName
  else
    protocolScheme cfg.Protocol ++ "://" ++ hostDomain cfg.HTTPAddr ++ ":" ++
      cfg.HTTPPort ++ (if cfg.ServeFromSubPath then cfg.AppSubURL else "") ++
      "/" ++ "public/img/attachments" ++ "/" ++ imageName

/-! ## Dashboard Renderer Adapter -/

/-- Options passed to `RenderService.Render` (Go `rendering.Opts`); only the
fields set by `renderDashboard` are modelled. -/
structure RenderOpts where
  TimeoutSeconds : Nat
  OrgID : Int
  OrgRole : String
  Width : Nat
  Height : Nat
  Path : String
  ConcurrentLimit : Int
  DeviceScaleFactor : Int
  Theme : String
deriving DecidableEq, Repr

/-- Result of `RenderService.Render`; only `FilePath` is read. -/
structure RenderResult where
  FilePath : String
deriving DecidableEq, Repr

/-- Go `renderDashboard`: calls the rendering collaborator with the fixed
options (60 s timeout, org 1, `Admin` role, 1600x800, scale factor 1, dark
theme) and returns the produced file path, or propagates the error. -/
def renderDashboard (cfg : Cfg) (renderService : RenderOpts → Except String RenderResult)
    (renderPath : String) : Except String String :=
  match renderService
      (RenderOpts.mk 60 1 "Admin" 1600 800 renderPath
        cfg.RendererConcurrentRequestLimit 1 "dark") with
  | .error e => .error e
  | .ok result => .ok result.FilePath

/-! ## Share Handler (`ShareToSlack`) -/

/-- The fixed four-block layout built by `ShareToSlack` (lines 89-126):
title+link section, message section, image preview, `View in Grafana`
action button. -/
def shareBlocks (dashboardLink dashboardTitle message imagePreviewUrl : String) :
    List Block :=
  [ Block.mk "section"
      (some (Text.mk "mrkdwn" ("<" ++ dashboardLink ++ "|*" ++ dashboardTitle ++ "*>")))
      none "" none "" [],
    Block.mk "section" (some (Text.mk "plain_text" message)) none "" none "" [],
    Block.mk "image" none none imagePreviewUrl
      (some (Text.mk "plain_text" "Dashboard preview")) "dashboard preview" [],
    Block.mk "actions" none none "" none ""
      [Element.mk "button" (some (Text.mk "plain_text" "View in Grafana"))
        "primary" "View in Grafana" dashboardLink] ]

/-- Result of the share handler: an HTTP error response, the success
`response.JSON(http.StatusOK, nil)`, or a nil-pointer fault. -/
inductive ShareOutcome where
  | errorResp (status : Nat) (message : String)
  | okResp (status : Nat)
  | panicked
deriving DecidableEq, Repr

/-- The per-channel loop of `ShareToSlack` (lines 128-160).  For each channel:
`json.Marshal` failure returns a 400 error; a failed `http.NewRequest` leaves
`req` nil and the unconditional `req.Header.Add` faults; a failed
`http.DefaultClient.Do` leaves `res` nil, its error is discarded, and
`io.ReadAll(res.Body)` faults; a failed body read is discarded and the loop
continues.  The first component records the payloads with which
`chat.postMessage` was actually invoked. -/
def shareLoop (marshal : PostMessageRequest → Option String)
    (newRequestOk : String → Bool)
    (doCall : PostMessageRequest → Option (Bool × String))
    (blocks : List Block) :
    List String → List PostMessageRequest × ShareOutcome
  | [] => ([], .okResp 200)
  | channelId :: rest =>
    match marshal (PostMessageRequest.mk channelId blocks) with
    | none => ([], .errorResp 400 "error parsing body")
    | some jsonBody =>
      if newRequestOk jsonBody then
        match doCall (PostMessageRequest.mk channelId blocks) with
        | none => ([PostMessageRequest.mk channelId blocks], .panicked)
        | some _ =>
          let r := shareLoop marshal newRequestOk doCall blocks rest
          (PostMessageRequest.mk channelId blocks :: r.1, r.2)
      else ([], .panicked)

/-- Go `ShareToSlack` (lines 58-163).  `getDashboard` is the dashboard
collaborator, `bindShare` the result of `web.Bind`, `uid` the `:uid` path
parameter; `marshal`, `newRequestOk` and `doCall` model `json.Marshal`,
`http.NewRequest` and `http.DefaultClient.Do` (with the `Bool` of `doCall`
telling whether the subsequent `io.ReadAll` of the response body succeeds). -/
def ShareToSlack (cfg : Cfg)
    (getDashboard : String → Except String Dashboard)
    (bindShare : Except String ShareRequest)
    (marshal : PostMessageRequest → Option String)
    (newRequestOk : String → Bool)
    (doCall : PostMessageRequest → Option (Bool × String))
    (uid : String) : List PostMessageRequest × ShareOutcome :=
  match getDashboard uid with
  | .error _ => ([], .errorResp 400 "error parsing body")
  | .ok dashboard =>
    match bindShare with
    | .error _ => ([], .errorResp 400 "error parsing body")
    | .ok shareRequest =>
      shareLoop marshal newRequestOk doCall
        (shareBlocks (dashboardLinkOf cfg shareRequest.DashboardPath)
          dashboard.Title shareRequest.Message shareRequest.ImagePreviewUrl)
        shareRequest.ChannelIds

/-! ## Event Dispatcher (`AcknowledgeSlackEvent`) -/

/-- Response of the event dispatcher: an HTTP error, the
`response.JSON(200, EventChallengeAck)` challenge echo, or
`response.Empty(200)`. -/
inductive AckResp where
  | errorResp (status : Nat) (message : String)
  | challengeResp (status : Nat) (challenge : String)
  | emptyResp (status : Nat)
deriving DecidableEq, Repr

/-- Go `AcknowledgeSlackEvent` (lines 165-184).  The second component is the
payload handed to the deferred `hs.handleLinkSharedEvent` call, i.e. the
fire-and-forget work scheduled to run after the response is sent (`none` when
nothing is scheduled).  The response itself is computed before and
independently of that deferred work. -/
def AcknowledgeSlackEvent (bindEvent : Except String EventPayload) :
    AckResp × Option EventPayload :=
  match bindEvent with
  | .error _ => (.errorResp 400 "error parsing body", none)
  | .ok eventPayload =>
    if eventPayload.Type' = "url_verification" then
      (.challengeResp 200 eventPayload.Challenge, none)
    else if eventPayload.Type' = "event_callback" then
      if eventPayload.Event.Type' = "link_shared" ∧
          eventPayload.Event.Source = "conversations_history" then
        (.emptyResp 200, some eventPayload)
      else
        (.errorResp 400 "not handling this event type", none)
    else
      (.errorResp 400 "not handling this event type", none)

/-! ## Unfurl Orchestrator (`handleLinkSharedEvent`, `sendUnfurlEvent`) -/

/-- Insertion into the Go map `Unfurls`: overwrite an existing key, otherwise
append a new entry. -/
def mapInsert (m : Unfurls) (k : String) (v : Unfurl) : Unfurls :=
  if m.any (fun e => e.1 == k) then
    m.map (fun e => if e.1 = k then (k, v) else e)
  else
    m ++ [(k, v)]

/-- The unfurl block layout built for one shared link (lines 225-263):
header with the dashboard title, descriptive section, image block, and a
`View Dashboard` action button whose value and URL are the shared link. -/
def unfurlBlocks (dashboardTitle imageURL linkURL : String) : List Block :=
  [ Block.mk "header" (some (Text.mk "plain_text" dashboardTitle)) none "" none "" [],
    Block.mk "section"
      (some (Text.mk "plain_text" "Here is the dashboard that I wanted to show you"))
      none "" none "" [],
    Block.mk "image" none none imageURL
      (some (Text.mk "plain_text" "Dashboard preview")) "dashboard preview" [],
    Block.mk "actions" none none "" none ""
      [Element.mk "button" (some (Text.mk "plain_text" "View Dashboard"))
        "primary" linkURL linkURL] ]

/-- The `Unfurls` map built by `sendUnfurlEvent`'s `for _, link := range`
loop: one insertion per link of the inbound event, keyed by the link URL. -/
def buildUnfurls (links : List Link) (dashboardTitle imageURL : String) : Unfurls :=
  links.foldl
    (fun acc link =>
      mapInsert acc link.URL (Unfurl.mk (unfurlBlocks dashboardTitle imageURL link.URL)))
    []

/-- The `eventPayload` value `sendUnfurlEvent` constructs before posting:
channel and message timestamp of the inbound event plus the unfurl map, with
the image URL derived from the rendered file's base name. -/
def buildUnfurlPayload (cfg : Cfg) (linkEvent : EventPayload)
    (imagePath dashboardTitle : String) : UnfurlEventPayload :=
  UnfurlEventPayload.mk linkEvent.Event.Channel linkEvent.Event.MessageTS
    (buildUnfurls linkEvent.Event.Links dashboardTitle
      (getImageURL cfg (filepathBase imagePath)))

/-- Result of `sendUnfurlEvent`: `ok`, a returned error, or a nil-pointer
fault. -/
inductive SendResult where
  | ok
  | err (message : String)
  | panicked
deriving DecidableEq, Repr

/-- Go `sendUnfurlEvent` (lines 214-297).  Marshal failure returns an error;
a failed `http.NewRequest` leaves `req` nil and the unconditional
`req.Header.Add` faults (the error check comes after the header writes); a
failed `http.DefaultClient.Do` is checked before use and returns an error, as
does a failed body read.  The first component records the payloads with which
`chat.unfurl` was actually invoked. -/
def sendUnfurlEvent (cfg : Cfg)
    (marshalU : UnfurlEventPayload → Option String)
    (newRequestOkU : String → Bool)
    (doCallU : UnfurlEventPayload → Option (Bool × String))
    (linkEvent : EventPayload) (imagePath dashboardTitle : String) :
    List UnfurlEventPayload × SendResult :=
  match marshalU (buildUnfurlPayload cfg linkEvent imagePath dashboardTitle) with
  | none => ([], .err "client: could not create body")
  | some b =>
    if newRequestOkU b then
      match doCallU (buildUnfurlPayload cfg linkEvent imagePath dashboardTitle) with
      | none =>
        ([buildUnfurlPayload cfg linkEvent imagePath dashboardTitle],
         .err "client: error making http request")
      | some (readOk, _) =>
        if readOk then
          ([buildUnfurlPayload cfg linkEvent imagePath dashboardTitle], .ok)
        else
          ([buildUnfurlPayload cfg linkEvent imagePath dashboardTitle],
           .err "client: could not read response body")
    else ([], .panicked)

/-- Outcome of the fire-and-forget unfurl path: it returns nothing, so it
either finishes (all its errors merely logged) or faults. -/
inductive UnfurlOutcome where
  | done
  | panicked
deriving DecidableEq, Repr

/-- Go `handleLinkSharedEvent` (lines 186-212).  Indexing
`event.Event.Links[0]` on an empty slice faults; an empty render path, a
failed dashboard fetch or a failed render each log and abort without calling
Slack; an error returned by `sendUnfurlEvent` is logged and swallowed.  The
first component records the `chat.unfurl` payloads actually posted. -/
def handleLinkSharedEvent (cfg : Cfg)
    (getDashboard : String → Except String Dashboard)
    (renderService : RenderOpts → Except String RenderResult)
    (marshalU : UnfurlEventPayload → Option String)
    (newRequestOkU : String → Bool)
    (doCallU : UnfurlEventPayload → Option (Bool × String))
    (event : EventPayload) : List UnfurlEventPayload × UnfurlOutcome :=
  match event.Event.Links with
  | [] => ([], .panicked)
  | link0 :: _ =>
    match extractURLInfo link0.URL with
    | (renderPath, dashboardUID) =>
      if renderPath = "" then ([], .done)
      else
        match getDashboard dashboardUID with
        | .error _ => ([], .done)
        | .ok dashboard =>
          match renderDashboard cfg renderService renderPath with
          | .error _ => ([], .done)
          | .ok imagePath =>
            match sendUnfurlEvent cfg marshalU newRequestOkU doCallU event
                imagePath dashboard.Title with
            | (calls, SendResult.panicked) => (calls, .panicked)
            | (calls, _) => (calls, .done)

/-! ## Lemmas about the Link Extractor -/

theorem matchAt_drop_of_le {s : List Char} {k : Nat} (h : s.length ≤ k) :
    matchAt (s.drop k) = none := by
  rw [List.drop_eq_nil_of_le h]
  rfl

theorem takeWhile_ne_of_not_mem (c : Char) :
    ∀ l : List Char, c ∉ l → l.takeWhile (fun x => x != c) = l := by
  intro l
  induction l with
  | nil => intro _; rfl
  | cons x xs ih =>
    intro h
    have hx : (x != c) = true := by
      rw [bne_iff_ne]
      intro he
      exact h (List.mem_cons.mpr (Or.inl he.symm))
    have hxs : c ∉ xs := fun hm => h (List.mem_cons.mpr (Or.inr hm))
    simp [List.takeWhile_cons, hx, ih hxs]

theorem findSlashIdx_append (u b : List Char) (hu : '/' ∉ u) :
    findSlashIdx (u ++ '/' :: b) = some u.length := by
  induction u with
  | nil => simp [findSlashIdx]
  | cons x xs ih =>
    have hx : ¬x = '/' := fun he => hu (List.mem_cons.mpr (Or.inl he.symm))
    have hxs : '/' ∉ xs := fun hm => hu (List.mem_cons.mpr (Or.inr hm))
    simp [findSlashIdx, hx, ih hxs]

theorem matchAt_decomp (u b : List Char) (hu : '/' ∉ u) (hb : '\n' ∉ b) :
    matchAt ('/' :: 'd' :: '/' :: (u ++ '/' :: b)) =
      some ('/' :: 'd' :: '/' :: (u ++ '/' :: b), u) := by
  have h1 : findSlashIdx (u ++ '/' :: b) = some u.length := findSlashIdx_append u b hu
  have h3 : (u ++ '/' :: b).drop (u.length + 1) = b := by
    have he : u ++ '/' :: b = (u ++ ['/']) ++ b := by simp
    have hlen : (u ++ ['/']).length = u.length + 1 := by simp
    rw [he, ← hlen, List.drop_left]
  have h4 : b.takeWhile (fun c => c != '\n') = b := takeWhile_ne_of_not_mem '\n' b hb
  simp [matchAt, h1, h3, h4, List.take_left u]

theorem tryDesc_none {s : List Char} (h : ∀ k, matchAt (s.drop k) = none) :
    ∀ cnt i, tryDesc s i cnt = none := by
  intro cnt
  induction cnt with
  | zero => intro i; rfl
  | succ c ih => intro i; simp [tryDesc, h i, ih]

theorem tryDesc_last {s : List Char} {i₀ : Nat} {v : List Char × List Char}
    (h0 : matchAt (s.drop i₀) = some v)
    (hnone : ∀ k, i₀ < k → matchAt (s.drop k) = none) :
    ∀ cnt i, i₀ ≤ i → i - i₀ < cnt → tryDesc s i cnt = some v := by
  intro cnt
  induction cnt with
  | zero => intro i _ h2; omega
  | succ c ih =>
    intro i h1 h2
    by_cases he : i = i₀
    · subst he; simp [tryDesc, h0]
    · have hlt : i₀ < i := lt_of_le_of_ne h1 (fun h => he h.symm)
      simp only [tryDesc, hnone i hlt]
      exact ih (i - 1) (by omega) (by omega)

theorem searchFrom_none {s : List Char} (h : ∀ k, matchAt (s.drop k) = none) :
    ∀ fuel p, searchFrom s p fuel = none := by
  intro fuel
  induction fuel with
  | zero => intro p; rfl
  | succ f ih =>
    intro p
    by_cases hp : s.length < p
    · simp [searchFrom, hp]
    · simp [searchFrom, hp, tryDesc_none h, ih]

theorem extractL_none (s : List Char)
    (h : ∀ k, k < s.length + 1 → matchAt (s.drop k) = none) :
    extractURLInfoL s = ([], []) := by
  have h' : ∀ k, matchAt (s.drop k) = none := by
    intro k
    by_cases hk : k < s.length + 1
    · exact h k hk
    · exact matchAt_drop_of_le (by omega)
  unfold extractURLInfoL
  rw [searchFrom_none h']

theorem extractL_pos (a u b : List Char)
    (hn : '\n' ∉ a ++ '/' :: 'd' :: '/' :: (u ++ '/' :: b))
    (hu : '/' ∉ u)
    (hlast : ∀ k, k < (a ++ '/' :: 'd' :: '/' :: (u ++ '/' :: b)).length + 1 →
      a.length < k → matchAt ((a ++ '/' :: 'd' :: '/' :: (u ++ '/' :: b)).drop k) = none) :
    extractURLInfoL (a ++ '/' :: 'd' :: '/' :: (u ++ '/' :: b)) =
      ('/' :: 'd' :: '/' :: (u ++ '/' :: b), u) := by
  set s := a ++ '/' :: 'd' :: '/' :: (u ++ '/' :: b) with hs
  have hb : '\n' ∉ b := by
    intro hm
    exact hn (by rw [hs]; simp [hm])
  have h0 : matchAt (s.drop a.length) = some ('/' :: 'd' :: '/' :: (u ++ '/' :: b), u) := by
    rw [hs, List.drop_left]
    exact matchAt_decomp u b hu hb
  have hnone : ∀ k, a.length < k → matchAt (s.drop k) = none := by
    intro k hk
    by_cases h2 : k < s.length + 1
    · exact hlast k h2 hk
    · exact matchAt_drop_of_le (by omega)
  have hlen : a.length ≤ s.length := by
    rw [hs, List.length_append]; omega
  have hrun : (s.drop 0).takeWhile (fun c => c != '\n') = s := by
    rw [List.drop_zero]
    exact takeWhile_ne_of_not_mem '\n' s hn
  have htry : tryDesc s (0 + s.length) (s.length + 1) =
      some ('/' :: 'd' :: '/' :: (u ++ '/' :: b), u) :=
    tryDesc_last h0 hnone (s.length + 1) (0 + s.length) (by omega) (by omega)
  have hsearch : searchFrom s 0 (s.length + 1) =
      some ('/' :: 'd' :: '/' :: (u ++ '/' :: b), u) := by
    simp only [searchFrom, hrun]
    rw [htry]
    simp
  unfold extractURLInfoL
  rw [hsearch]

/-- Claim C1: for every URL string containing a dashboard path segment
`/d/<uid>/<slug>`, `extractURLInfo` returns the substring from `/d/` to the
end of the string as the render path and `<uid>` (the segment between `/d/`
and the next slash) as the dashboard identifier; for every URL string with no
such segment it returns two empty strings.  The decomposition hypotheses pin
down "the" segment: the URL contains no newline (Go's `.` never matches
`'\n'`), `<uid>` is slash-free, and no later position of the string also
matches `\/d\/[^\/]*\/.*` (the leading greedy `.*` of the pattern selects the
rightmost such position). -/
theorem extractURLInfo_spec :
    (∀ (s : String) (a u b : List Char),
      s.data = a ++ '/' :: 'd' :: '/' :: (u ++ '/' :: b) →
      '\n' ∉ s.data →
      '/' ∉ u →
      (∀ k, k < s.data.length + 1 → a.length < k → matchAt (s.data.drop k) = none) →
      extractURLInfo s = (String.mk ('/' :: 'd' :: '/' :: (u ++ '/' :: b)), String.mk u))
    ∧ (∀ s : String,
      (∀ k, k < s.data.length + 1 → matchAt (s.data.drop k) = none) →
      extractURLInfo s = ("", "")) := by
  constructor
  · intro s a u b hdec hn hu hlast
    rw [hdec] at hn hlast
    unfold extractURLInfo
    rw [hdec, extractL_pos a u b hn hu hlast]
  · intro s h
    unfold extractURLInfo
    rw [extractL_none s.data h]

/-- Witness for C1: a matching URL yields the suffix from `/d/` and the UID;
a URL without a dashboard segment yields two empty strings. -/
theorem extractURLInfo_spec_witness :
    extractURLInfo "http://h/d/u1/s" = ("/d/u1/s", "u1") ∧
    extractURLInfo "https://grafana.example" = ("", "") := by
  constructor
  · have h := extractURLInfo_spec.1 "http://h/d/u1/s"
      ['h', 't', 't', 'p', ':', '/', '/', 'h'] ['u', '1'] ['s']
      (by decide) (by decide) (by decide) (by decide)
    exact h.trans (by decide)
  · exact extractURLInfo_spec.2 "https://grafana.example" (by decide)

/-! ## Lemmas about the share loop -/

/-- All three external steps of one iteration of the per-channel loop
succeed: marshal, request construction, and the HTTP call itself. -/
def chanOk (marshal : PostMessageRequest → Option String)
    (newRequestOk : String → Bool)
    (doCall : PostMessageRequest → Option (Bool × String))
    (blocks : List Block) (c : String) : Prop :=
  (∃ b, marshal (PostMessageRequest.mk c blocks) = some b ∧ newRequestOk b = true) ∧
    (doCall (PostMessageRequest.mk c blocks)).isSome = true

theorem shareLoop_ok {marshal : PostMessageRequest → Option String}
    {newRequestOk : String → Bool} {doCall : PostMessageRequest → Option (Bool × String)}
    {blocks : List Block} :
    ∀ channels : List String,
      (∀ c ∈ channels, chanOk marshal newRequestOk doCall blocks c) →
      shareLoop marshal newRequestOk doCall blocks channels =
        (channels.map (fun ch => PostMessageRequest.mk ch blocks), .okResp 200) := by
  intro channels
  induction channels with
  | nil => intro _; rfl
  | cons ch rest ih =>
    intro h
    obtain ⟨⟨b, hm, hn⟩, hd⟩ := h ch (List.mem_cons_self ch rest)
    obtain ⟨val, hval⟩ := Option.isSome_iff_exists.mp hd
    have ihr := ih (fun c hc => h c (List.mem_cons_of_mem ch hc))
    simp [shareLoop, hm, hn, hval, ihr]

theorem shareLoop_marshal_fail {marshal : PostMessageRequest → Option String}
    {newRequestOk : String → Bool} {doCall : PostMessageRequest → Option (Bool × String)}
    {blocks : List Block} :
    ∀ pre : List String, ∀ ch : String, ∀ rest : List String,
      (∀ c ∈ pre, chanOk marshal newRequestOk doCall blocks c) →
      marshal (PostMessageRequest.mk ch blocks) = none →
      shareLoop marshal newRequestOk doCall blocks (pre ++ ch :: rest) =
        (pre.map (fun c => PostMessageRequest.mk c blocks),
         .errorResp 400 "error parsing body") := by
  intro pre
  induction pre with
  | nil => intro ch rest _ hm; simp [shareLoop, hm]
  | cons p ps ih =>
    intro ch rest h hm
    obtain ⟨⟨b, hmp, hnp⟩, hd⟩ := h p (List.mem_cons_self p ps)
    obtain ⟨val, hval⟩ := Option.isSome_iff_exists.mp hd
    have ihr := ih ch rest (fun c hc => h c (List.mem_cons_of_mem p hc)) hm
    simp [shareLoop, hmp, hnp, hval, ihr]

theorem shareLoop_construct_fail {marshal : PostMessageRequest → Option String}
    {newRequestOk : String → Bool} {doCall : PostMessageRequest → Option (Bool × String)}
    {blocks : List Block} :
    ∀ pre : List String, ∀ ch : String, ∀ rest : List String, ∀ body : String,
      (∀ c ∈ pre, chanOk marshal newRequestOk doCall blocks c) →
      marshal (PostMessageRequest.mk ch blocks) = some body →
      newRequestOk body = false →
      shareLoop marshal newRequestOk doCall blocks (pre ++ ch :: rest) =
        (pre.map (fun c => PostMessageRequest.mk c blocks), .panicked) := by
  intro pre
  induction pre with
  | nil => intro ch rest body _ hm hn; simp [shareLoop, hm, hn]
  | cons p ps ih =>
    intro ch rest body h hm hn
    obtain ⟨⟨b, hmp, hnp⟩, hd⟩ := h p (List.mem_cons_self p ps)
    obtain ⟨val, hval⟩ := Option.isSome_iff_exists.mp hd
    have ihr := ih ch rest body (fun c hc => h c (List.mem_cons_of_mem p hc)) hm hn
    simp [shareLoop, hmp, hnp, hval, ihr]

theorem shareLoop_do_fail {marshal : PostMessageRequest → Option String}
    {newRequestOk : String → Bool} {doCall : PostMessageRequest → Option (Bool × String)}
    {blocks : List Block} :
    ∀ pre : List String, ∀ ch : String, ∀ rest : List String, ∀ body : String,
      (∀ c ∈ pre, chanOk marshal newRequestOk doCall blocks c) →
      marshal (PostMessageRequest.mk ch blocks) = some body →
      newRequestOk body = true →
      doCall (PostMessageRequest.mk ch blocks) = none →
      shareLoop marshal newRequestOk doCall blocks (pre ++ ch :: rest) =
        (pre.map (fun c => PostMessageRequest.mk c blocks) ++
           [PostMessageRequest.mk ch blocks], .panicked) := by
  intro pre
  induction pre with
  | nil => intro ch rest body _ hm hn hd; simp [shareLoop, hm, hn, hd]
  | cons p ps ih =>
    intro ch rest body h hm hn hd
    obtain ⟨⟨b, hmp, hnp⟩, hdp⟩ := h p (List.mem_cons_self p ps)
    obtain ⟨val, hval⟩ := Option.isSome_iff_exists.mp hdp
    have ihr := ih ch rest body (fun c hc => h c (List.mem_cons_of_mem p hc)) hm hn hd
    simp [shareLoop, hmp, hnp, hval, ihr]

theorem shareLoop_not_ok {marshal : PostMessageRequest → Option String}
    {newRequestOk : String → Bool} {doCall : PostMessageRequest → Option (Bool × String)}
    {blocks : List Block} :
    ∀ channels : List String,
      ¬(∀ c ∈ channels, chanOk marshal newRequestOk doCall blocks c) →
      (shareLoop marshal newRequestOk doCall blocks channels).2 ≠ .okResp 200 := by
  intro channels
  induction channels with
  | nil => intro h; exact absurd (fun c hc => absurd hc (List.not_mem_nil c)) h
  | cons ch rest ih =>
    intro h
    by_cases hok : chanOk marshal newRequestOk doCall blocks ch
    · obtain ⟨⟨b, hm, hn⟩, hd⟩ := hok
      obtain ⟨val, hval⟩ := Option.isSome_iff_exists.mp hd
      have hrest : ¬(∀ c ∈ rest, chanOk marshal newRequestOk doCall blocks c) := by
        intro hall
        exact h (fun c hc => by
          rcases List.mem_cons.mp hc with hc | hc
          · exact hc ▸ ⟨⟨b, hm, hn⟩, hd⟩
          · exact hall c hc)
      have ihr := ih hrest
      simpa [shareLoop, hm, hn, hval] using ihr
    · match hm : marshal (PostMessageRequest.mk ch blocks) with
      | none => simp [shareLoop, hm]
      | some b =>
        match hn : newRequestOk b with
        | false => simp [shareLoop, hm, hn]
        | true =>
          match hd : doCall (PostMessageRequest.mk ch blocks) with
          | none => simp [shareLoop, hm, hn, hd]
          | some val =>
            exact absurd ⟨⟨b, hm, hn⟩, by simp [hd]⟩ hok

/-- A sample configuration used by concrete witnesses and counterexamples. -/
def exCfg : Cfg := Cfg.mk "http" "127.0.0.1" "3000" "xoxb-token" "" false "" 30

theorem ShareToSlack_ok_unfold (cfg : Cfg)
    (getDashboard : String → Except String Dashboard) (sr : ShareRequest)
    (d : Dashboard) (uid : String)
    (marshal : PostMessageRequest → Option String) (newRequestOk : String → Bool)
    (doCall : PostMessageRequest → Option (Bool × String))
    (hgd : getDashboard uid = .ok d) :
    ShareToSlack cfg getDashboard (.ok sr) marshal newRequestOk doCall uid =
      shareLoop marshal newRequestOk doCall
        (shareBlocks (dashboardLinkOf cfg sr.DashboardPath) d.Title
          sr.Message sr.ImagePreviewUrl) sr.ChannelIds := by
  simp [ShareToSlack, hgd]

/-- Claim C8: when the dashboard-metadata fetch fails, `ShareToSlack` returns
a 400 Bad-Request error reported with the body-parsing label
(`"error parsing body"`), and no outbound `chat.postMessage` call is made:
the fetch precedes the per-channel loop, so the recorded call list is empty
whatever the request body or the Slack oracles do. -/
theorem shareFetchFail_spec (cfg : Cfg) (getDashboard : String → Except String Dashboard)
    (bindShare : Except String ShareRequest)
    (marshal : PostMessageRequest → Option String) (newRequestOk : String → Bool)
    (doCall : PostMessageRequest → Option (Bool × String)) (uid e : String)
    (h : getDashboard uid = .error e) :
    ShareToSlack cfg getDashboard bindShare marshal newRequestOk doCall uid =
      ([], .errorResp 400 "error parsing body") := by
  simp [ShareToSlack, h]

/-- Witness for C8: a concrete failing fetch yields the 400 response and an
empty call list. -/
theorem shareFetchFail_spec_witness :
    ShareToSlack exCfg (fun _ => Except.error "dashboard not found")
      (Except.ok (ShareRequest.mk ["chan-1"] "hi" "http://img" "" "/d/u/p"))
      (fun _ => some "{}") (fun _ => true) (fun _ => some (true, "ok")) "u" =
      ([], .errorResp 400 "error parsing body") :=
  shareFetchFail_spec exCfg (fun _ => Except.error "dashboard not found")
    (Except.ok (ShareRequest.mk ["chan-1"] "hi" "http://img" "" "/d/u/p"))
    (fun _ => some "{}") (fun _ => true) (fun _ => some (true, "ok"))
    "u" "dashboard not found" rfl

/-- Claim C3: when the dashboard fetch and body bind succeed and every
per-channel marshal, request construction and HTTP call succeeds, the Share
Handler attempts exactly one `chat.postMessage` call per channel identifier,
in list order, and every call carries the same four-block payload
(`shareBlocks`), differing only in the channel field. -/
theorem sharePostsPerChannel (cfg : Cfg) (getDashboard : String → Except String Dashboard)
    (sr : ShareRequest) (d : Dashboard) (uid : String)
    (marshal : PostMessageRequest → Option String) (newRequestOk : String → Bool)
    (doCall : PostMessageRequest → Option (Bool × String))
    (hgd : getDashboard uid = .ok d)
    (hm : ∀ r, (marshal r).isSome = true)
    (hn : ∀ s, newRequestOk s = true)
    (hd : ∀ r, (doCall r).isSome = true) :
    ShareToSlack cfg getDashboard (.ok sr) marshal newRequestOk doCall uid =
      (sr.ChannelIds.map (fun ch => PostMessageRequest.mk ch
          (shareBlocks (dashboardLinkOf cfg sr.DashboardPath) d.Title
            sr.Message sr.ImagePreviewUrl)),
       .okResp 200) := by
  have hloop := @shareLoop_ok marshal newRequestOk doCall
      (shareBlocks (dashboardLinkOf cfg sr.DashboardPath) d.Title
        sr.Message sr.ImagePreviewUrl)
      sr.ChannelIds
      (fun c _ => by
        obtain ⟨b, hb⟩ := Option.isSome_iff_exists.mp (hm (PostMessageRequest.mk c _))
        exact ⟨⟨b, hb, hn b⟩, hd _⟩)
  simp [ShareToSlack, hgd, hloop]

/-- Witness for C3: with three channel identifiers, exactly three calls are
attempted, identical apart from the channel. -/
theorem sharePostsPerChannel_witness :
    ShareToSlack exCfg (fun _ => Except.ok (Dashboard.mk "My dashboard"))
      (Except.ok (ShareRequest.mk ["chan-1", "chan-2", "chan-3"] "look" "http://img" "" "/d/u/p"))
      (fun _ => some "{}") (fun _ => true) (fun _ => some (true, "ok")) "u" =
      ((["chan-1", "chan-2", "chan-3"] : List String).map (fun ch => PostMessageRequest.mk ch
          (shareBlocks (dashboardLinkOf exCfg "/d/u/p") "My dashboard" "look" "http://img")),
       .okResp 200) :=
  sharePostsPerChannel exCfg (fun _ => Except.ok (Dashboard.mk "My dashboard"))
    (ShareRequest.mk ["chan-1", "chan-2", "chan-3"] "look" "http://img" "" "/d/u/p")
    (Dashboard.mk "My dashboard") "u"
    (fun _ => some "{}") (fun _ => true) (fun _ => some (true, "ok"))
    rfl (fun _ => rfl) (fun _ => rfl) (fun _ => rfl)

/-- Counterexample to C2 as stated: with two channels and a failing
`json.Marshal`, the loop aborts at the first channel with a 400 response —
the error is not merely discarded, the remaining channel is not attempted,
and the handler does not return success. -/
theorem shareMarshalFail_cex :
    ShareToSlack exCfg (fun _ => Except.ok (Dashboard.mk "My dashboard"))
      (Except.ok (ShareRequest.mk ["chan-1", "chan-2"] "hello" "http://img" "" "/d/u/p"))
      (fun _ => none) (fun _ => true) (fun _ => some (true, "ok")) "u" =
      ([], .errorResp 400 "error parsing body") ∧
    (ShareToSlack exCfg (fun _ => Except.ok (Dashboard.mk "My dashboard"))
      (Except.ok (ShareRequest.mk ["chan-1", "chan-2"] "hello" "http://img" "" "/d/u/p"))
      (fun _ => none) (fun _ => true) (fun _ => some (true, "ok")) "u").2 ≠
      .okResp 200 := by
  constructor
  · rfl
  · intro h
    simp [ShareToSlack, shareLoop] at h

/-- Claim C2 as amended: in the per-channel loop, a marshal failure aborts
the handler immediately with a 400 `"error parsing body"` response and the
failing and remaining channels are not attempted; a request-construction
failure leaves its error in a discarded value, but the handler has already
added headers to the nil request, so the loop aborts with a nil-pointer
fault rather than continuing.  (`blocks` abbreviates the four-block payload
of the request body.) -/
theorem shareMarshalFail_amended (cfg : Cfg)
    (getDashboard : String → Except String Dashboard) (sr : ShareRequest)
    (d : Dashboard) (uid : String) (blocks : List Block)
    (marshal : PostMessageRequest → Option String) (newRequestOk : String → Bool)
    (doCall : PostMessageRequest → Option (Bool × String))
    (pre : List String) (ch : String) (rest : List String)
    (hb : blocks = shareBlocks (dashboardLinkOf cfg sr.DashboardPath) d.Title
      sr.Message sr.ImagePreviewUrl)
    (hgd : getDashboard uid = .ok d)
    (hch : sr.ChannelIds = pre ++ ch :: rest)
    (hpre : ∀ c ∈ pre, chanOk marshal newRequestOk doCall blocks c) :
    (marshal (PostMessageRequest.mk ch blocks) = none →
      ShareToSlack cfg getDashboard (.ok sr) marshal newRequestOk doCall uid =
        (pre.map (fun c => PostMessageRequest.mk c blocks),
         .errorResp 400 "error parsing body")) ∧
    (∀ body, marshal (PostMessageRequest.mk ch blocks) = some body →
      newRequestOk body = false →
      ShareToSlack cfg getDashboard (.ok sr) marshal newRequestOk doCall uid =
        (pre.map (fun c => PostMessageRequest.mk c blocks), .panicked)) := by
  subst hb
  constructor
  · intro hm
    have hloop := shareLoop_marshal_fail pre ch rest hpre hm
    rw [ShareToSlack_ok_unfold cfg getDashboard sr d uid _ _ _ hgd, hch]
    exact hloop
  · intro body hm hn
    have hloop := shareLoop_construct_fail pre ch rest body hpre hm hn
    rw [ShareToSlack_ok_unfold cfg getDashboard sr d uid _ _ _ hgd, hch]
    exact hloop

/-- Witness for the amended C2: a concrete marshal failure yields the 400
abort, and a concrete construction failure yields the nil-pointer fault. -/
theorem shareMarshalFail_amended_witness :
    ShareToSlack exCfg (fun _ => Except.ok (Dashboard.mk "D"))
      (Except.ok (ShareRequest.mk ["chan-1", "chan-2"] "m" "i" "" "/d/u/p"))
      (fun _ => none) (fun _ => true) (fun _ => some (true, "ok")) "u" =
      ([], .errorResp 400 "error parsing body") ∧
    ShareToSlack exCfg (fun _ => Except.ok (Dashboard.mk "D"))
      (Except.ok (ShareRequest.mk ["chan-1", "chan-2"] "m" "i" "" "/d/u/p"))
      (fun _ => some "{}") (fun _ => false) (fun _ => some (true, "ok")) "u" =
      ([], .panicked) := by
  constructor
  · have h := (shareMarshalFail_amended exCfg (fun _ => Except.ok (Dashboard.mk "D"))
      (ShareRequest.mk ["chan-1", "chan-2"] "m" "i" "" "/d/u/p") (Dashboard.mk "D") "u"
      (shareBlocks (dashboardLinkOf exCfg "/d/u/p") "D" "m" "i")
      (fun _ => none) (fun _ => true) (fun _ => some (true, "ok"))
      [] "chan-1" ["chan-2"] rfl rfl rfl
      (fun c hc => absurd hc (List.not_mem_nil c))).1 rfl
    simpa using h
  · have h := (shareMarshalFail_amended exCfg (fun _ => Except.ok (Dashboard.mk "D"))
      (ShareRequest.mk ["chan-1", "chan-2"] "m" "i" "" "/d/u/p") (Dashboard.mk "D") "u"
      (shareBlocks (dashboardLinkOf exCfg "/d/u/p") "D" "m" "i")
      (fun _ => some "{}") (fun _ => false) (fun _ => some (true, "ok"))
      [] "chan-1" ["chan-2"] rfl rfl rfl
      (fun c hc => absurd hc (List.not_mem_nil c))).2 "{}" rfl rfl
    simpa using h

/-- Claim C10: with the dashboard fetch and bind succeeding and marshal and
request construction total (as they are for these fixed inputs in Go), the
handler finishes with the 200 success response exactly when every
per-channel `chat.postMessage` HTTP call succeeds — the discarded `Do` error
leaves a nil response whose body read faults, so "every call succeeds" is
the precondition for the response-body read to be well-defined, and the code
checks nothing: the first failing call turns the whole handler into a
nil-pointer fault right after that call is attempted. -/
theorem shareDoFail_precondition (cfg : Cfg)
    (getDashboard : String → Except String Dashboard) (sr : ShareRequest)
    (d : Dashboard) (uid : String) (blocks : List Block)
    (marshal : PostMessageRequest → Option String) (newRequestOk : String → Bool)
    (doCall : PostMessageRequest → Option (Bool × String))
    (hb : blocks = shareBlocks (dashboardLinkOf cfg sr.DashboardPath) d.Title
      sr.Message sr.ImagePreviewUrl)
    (hgd : getDashboard uid = .ok d)
    (hm : ∀ r, (marshal r).isSome = true)
    (hn : ∀ s, newRequestOk s = true) :
    ((ShareToSlack cfg getDashboard (.ok sr) marshal newRequestOk doCall uid).2 =
        .okResp 200 ↔
      ∀ ch ∈ sr.ChannelIds, (doCall (PostMessageRequest.mk ch blocks)).isSome = true) ∧
    (∀ pre ch rest, sr.ChannelIds = pre ++ ch :: rest →
      (∀ c ∈ pre, (doCall (PostMessageRequest.mk c blocks)).isSome = true) →
      doCall (PostMessageRequest.mk ch blocks) = none →
      ShareToSlack cfg getDashboard (.ok sr) marshal newRequestOk doCall uid =
        (pre.map (fun c => PostMessageRequest.mk c blocks) ++
           [PostMessageRequest.mk ch blocks], .panicked)) := by
  subst hb
  have hchan : ∀ c, chanOk marshal newRequestOk doCall
      (shareBlocks (dashboardLinkOf cfg sr.DashboardPath) d.Title
        sr.Message sr.ImagePreviewUrl) c ↔
      (doCall (PostMessageRequest.mk c
        (shareBlocks (dashboardLinkOf cfg sr.DashboardPath) d.Title
          sr.Message sr.ImagePreviewUrl))).isSome = true := by
    intro c
    constructor
    · intro h; exact h.2
    · intro h
      obtain ⟨b, hbm⟩ := Option.isSome_iff_exists.mp (hm (PostMessageRequest.mk c _))
      exact ⟨⟨b, hbm, hn b⟩, h⟩
  constructor
  · constructor
    · intro h ch hch
      by_contra hnot
      have : ¬(∀ c ∈ sr.ChannelIds, chanOk marshal newRequestOk doCall
          (shareBlocks (dashboardLinkOf cfg sr.DashboardPath) d.Title
            sr.Message sr.ImagePreviewUrl) c) := by
        intro hall
        exact hnot ((hchan ch).mp (hall ch hch))
      have hne := shareLoop_not_ok sr.ChannelIds this
      rw [ShareToSlack_ok_unfold cfg getDashboard sr d uid _ _ _ hgd] at h
      exact hne h
    · intro h
      have hloop := shareLoop_ok sr.ChannelIds (fun c hc => (hchan c).mpr (h c hc))
      rw [ShareToSlack_ok_unfold cfg getDashboard sr d uid _ _ _ hgd, hloop]
  · intro pre ch rest hsplit hpre hd
    obtain ⟨body, hbody⟩ := Option.isSome_iff_exists.mp (hm (PostMessageRequest.mk ch _))
    have hloop := shareLoop_do_fail pre ch rest body
      (fun c hc => (hchan c).mpr (hpre c hc)) hbody (hn body) hd
    rw [ShareToSlack_ok_unfold cfg getDashboard sr d uid _ _ _ hgd, hsplit]
    exact hloop

/-- Witness for C10: with the second of two channels failing its HTTP call,
the handler faults right after attempting both calls in order. -/
theorem shareDoFail_precondition_witness :
    ShareToSlack exCfg (fun _ => Except.ok (Dashboard.mk "D"))
      (Except.ok (ShareRequest.mk ["chan-1", "chan-2"] "m" "i" "" "/d/u/p"))
      (fun _ => some "{}") (fun _ => true)
      (fun r => if r.Channel = "chan-1" then some (true, "ok") else none) "u" =
      (([("chan-1" : String)].map (fun c => PostMessageRequest.mk c
          (shareBlocks (dashboardLinkOf exCfg "/d/u/p") "D" "m" "i"))) ++
        [PostMessageRequest.mk "chan-2"
          (shareBlocks (dashboardLinkOf exCfg "/d/u/p") "D" "m" "i")],
       .panicked) :=
  (shareDoFail_precondition exCfg (fun _ => Except.ok (Dashboard.mk "D"))
    (ShareRequest.mk ["chan-1", "chan-2"] "m" "i" "" "/d/u/p") (Dashboard.mk "D") "u"
    (shareBlocks (dashboardLinkOf exCfg "/d/u/p") "D" "m" "i")
    (fun _ => some "{}") (fun _ => true)
    (fun r => if r.Channel = "chan-1" then some (true, "ok") else none)
    rfl rfl (fun _ => rfl) (fun _ => rfl)).2
    ["chan-1"] "chan-2" [] rfl
    (fun c hc => by
      have : c = "chan-1" := by simpa using hc
      subst this
      rfl)
    (by simp)

/-! ## Event Dispatcher claims -/

/-- Example inner event, payloads and link used by concrete witnesses. -/
def exLink : Link := Link.mk "http://h/d/u1/s" "h"

/-- Example qualifying `link_shared` event. -/
def exEvent : Event :=
  Event.mk "link_shared" "U1" "C1" "123.45" [exLink] "conversations_history" "" false ""

/-- Example qualifying `event_callback` payload. -/
def exPayload : EventPayload :=
  EventPayload.mk "" "" "" exEvent "event_callback" "Ev1" 0 [] false "" ""

/-- Example payload of an unhandled type. -/
def exPayloadOther : EventPayload :=
  EventPayload.mk "" "" "" exEvent "team_join" "Ev2" 0 [] false "" ""

/-- Example `url_verification` payload. -/
def exPayloadVerify : EventPayload :=
  EventPayload.mk "" "" "" (Event.mk "" "" "" "" [] "" "" false "")
    "url_verification" "Ev3" 0 [] false "" "abc123"

/-- Example qualifying payload whose event carries no links. -/
def exPayloadNoLinks : EventPayload :=
  EventPayload.mk "" ""  ""
    (Event.mk "link_shared" "U1" "C1" "123.45" [] "conversations_history" "" false "")
    "event_callback" "Ev4" 0 [] false "" ""

/-- Claim C4: the dispatcher answers an empty 200 exactly for decoded
payloads of type `event_callback` whose event is `link_shared` from
`conversations_history` (the deferred unfurl work is merely recorded as
scheduled, so the response cannot depend on its fate), and answers a 400
error for every other type/event combination apart from
`url_verification`. -/
theorem ackDispatch_spec (p : EventPayload) :
    ((AcknowledgeSlackEvent (.ok p)).1 = .emptyResp 200 ↔
      (p.Type' = "event_callback" ∧ p.Event.Type' = "link_shared" ∧
        p.Event.Source = "conversations_history")) ∧
    ((p.Type' = "event_callback" ∧ p.Event.Type' = "link_shared" ∧
        p.Event.Source = "conversations_history") →
      AcknowledgeSlackEvent (.ok p) = (.emptyResp 200, some p)) ∧
    (p.Type' ≠ "url_verification" →
      ¬(p.Type' = "event_callback" ∧ p.Event.Type' = "link_shared" ∧
        p.Event.Source = "conversations_history") →
      AcknowledgeSlackEvent (.ok p) =
        (.errorResp 400 "not handling this event type", none)) := by
  by_cases h1 : p.Type' = "url_verification"
  · have hr : AcknowledgeSlackEvent (.ok p) = (.challengeResp 200 p.Challenge, none) := by
      simp [AcknowledgeSlackEvent, h1]
    refine ⟨?_, ?_, ?_⟩
    · rw [hr]
      constructor
      · intro h; exact absurd h (by simp)
      · rintro ⟨ha, -⟩
        rw [h1] at ha
        exact absurd ha (by decide)
    · rintro ⟨ha, -⟩
      rw [h1] at ha
      exact absurd ha (by decide)
    · intro hne _
      exact absurd h1 hne
  · by_cases h2 : p.Type' = "event_callback"
    · by_cases h3 : p.Event.Type' = "link_shared" ∧ p.Event.Source = "conversations_history"
      · have hr : AcknowledgeSlackEvent (.ok p) = (.emptyResp 200, some p) := by
          simp [AcknowledgeSlackEvent, h1, h2, h3]
        refine ⟨?_, fun _ => hr, ?_⟩
        · rw [hr]
          simp [h2, h3.1, h3.2]
        · intro _ hc
          exact absurd ⟨h2, h3.1, h3.2⟩ hc
      · have hr : AcknowledgeSlackEvent (.ok p) =
            (.errorResp 400 "not handling this event type", none) := by
          simp [AcknowledgeSlackEvent, h1, h2, h3]
        refine ⟨?_, ?_, fun _ _ => hr⟩
        · rw [hr]
          constructor
          · intro h; exact absurd h (by simp)
          · rintro ⟨-, hb, hc⟩
            exact absurd ⟨hb, hc⟩ h3
        · rintro ⟨-, hb, hc⟩
          exact absurd ⟨hb, hc⟩ h3
    · have hr : AcknowledgeSlackEvent (.ok p) =
          (.errorResp 400 "not handling this event type", none) := by
        simp [AcknowledgeSlackEvent, h1, h2]
      refine ⟨?_, ?_, fun _ _ => hr⟩
      · rw [hr]
        constructor
        · intro h; exact absurd h (by simp)
        · rintro ⟨ha, -⟩
          exact absurd ha h2
      · rintro ⟨ha, -⟩
        exact absurd ha h2

/-- Witness for C4: a qualifying payload gets the empty 200 and schedules the
deferred unfurl; a `team_join` payload gets the 400 error. -/
theorem ackDispatch_spec_witness :
    AcknowledgeSlackEvent (.ok exPayload) = (.emptyResp 200, some exPayload) ∧
    AcknowledgeSlackEvent (.ok exPayloadOther) =
      (.errorResp 400 "not handling this event type", none) :=
  ⟨(ackDispatch_spec exPayload).2.1 ⟨rfl, rfl, rfl⟩,
   (ackDispatch_spec exPayloadOther).2.2 (by decide) (by decide)⟩

/-- Claim C5: for every decoded payload of type `url_verification`, the
dispatcher returns status 200 with a body holding exactly the inbound
challenge string, unchanged, and schedules no deferred work. -/
theorem ackChallenge_spec (p : EventPayload) (h : p.Type' = "url_verification") :
    AcknowledgeSlackEvent (.ok p) = (.challengeResp 200 p.Challenge, none) := by
  simp [AcknowledgeSlackEvent, h]

/-- Witness for C5: challenge `abc123` is echoed back with status 200. -/
theorem ackChallenge_spec_witness :
    AcknowledgeSlackEvent (.ok exPayloadVerify) = (.challengeResp 200 "abc123", none) :=
  ackChallenge_spec exPayloadVerify rfl

/-! ## Unfurl Orchestrator claims -/

theorem sendUnfurl_no_panic (cfg : Cfg)
    (marshalU : UnfurlEventPayload → Option String)
    (newRequestOkU : String → Bool)
    (doCallU : UnfurlEventPayload → Option (Bool × String))
    (linkEvent : EventPayload) (imagePath dashboardTitle : String)
    (hn : ∀ s, newRequestOkU s = true) :
    (sendUnfurlEvent cfg marshalU newRequestOkU doCallU linkEvent
      imagePath dashboardTitle).2 ≠ .panicked := by
  unfold sendUnfurlEvent
  cases hm : marshalU (buildUnfurlPayload cfg linkEvent imagePath dashboardTitle) with
  | none => simp
  | some b =>
    simp only [hn b, if_true]
    cases hd : doCallU (buildUnfurlPayload cfg linkEvent imagePath dashboardTitle) with
    | none => simp
    | some v =>
      obtain ⟨readOk, body⟩ := v
      cases readOk <;> simp

theorem buildUnfurls_acc (dashboardTitle imageURL : String) :
    ∀ (links : List Link) (acc : Unfurls),
      (∀ l ∈ links, acc.any (fun e => e.1 == l.URL) = false) →
      (links.map Link.URL).Nodup →
      links.foldl
        (fun acc link =>
          mapInsert acc link.URL
            (Unfurl.mk (unfurlBlocks dashboardTitle imageURL link.URL))) acc =
        acc ++ links.map
          (fun l => (l.URL, Unfurl.mk (unfurlBlocks dashboardTitle imageURL l.URL))) := by
  intro links
  induction links with
  | nil => intro acc _ _; simp
  | cons l ls ih =>
    intro acc hacc hnd
    have hl : acc.any (fun e => e.1 == l.URL) = false := hacc l (List.mem_cons_self l ls)
    have hnd' : (l.URL :: ls.map Link.URL).Nodup := by simpa using hnd
    have hhead : l.URL ∉ ls.map Link.URL := (List.nodup_cons.mp hnd').1
    have hstep : mapInsert acc l.URL
        (Unfurl.mk (unfurlBlocks dashboardTitle imageURL l.URL)) =
        acc ++ [(l.URL, Unfurl.mk (unfurlBlocks dashboardTitle imageURL l.URL))] := by
      simp [mapInsert, hl]
    rw [List.foldl_cons, hstep,
      ih (acc ++ [(l.URL, Unfurl.mk (unfurlBlocks dashboardTitle imageURL l.URL))])
        ?_ (List.nodup_cons.mp hnd').2]
    · simp
    · intro l' hl'
      have hne : l'.URL ≠ l.URL := by
        intro he
        exact hhead (he ▸ List.mem_map_of_mem Link.URL hl')
      have hne' : l.URL ≠ l'.URL := fun hh => hne hh.symm
      rw [List.any_append]
      simp [hacc l' (List.mem_cons_of_mem l hl'), hne']

/-- Claim C7: the `Unfurls` mapping sent to Slack has one entry per link of
the inbound event, keyed by the link's original URL (links are distinct in a
`link_shared` event, captured by the `Nodup` hypothesis), and every entry's
layout is the four blocks header / descriptive section / image / action
button whose value and URL are the shared link; when the payload is marshaled
and the request constructed, exactly this payload is what `chat.unfurl` is
invoked with. -/
theorem unfurlMapping_spec (cfg : Cfg)
    (marshalU : UnfurlEventPayload → Option String)
    (newRequestOkU : String → Bool)
    (doCallU : UnfurlEventPayload → Option (Bool × String))
    (ev : EventPayload) (imagePath dashboardTitle : String)
    (hnd : (ev.Event.Links.map Link.URL).Nodup) :
    (buildUnfurlPayload cfg ev imagePath dashboardTitle).Unfurls =
      ev.Event.Links.map (fun link => (link.URL,
        Unfurl.mk (unfurlBlocks dashboardTitle
          (getImageURL cfg (filepathBase imagePath)) link.URL))) ∧
    (∀ b, marshalU (buildUnfurlPayload cfg ev imagePath dashboardTitle) = some b →
      newRequestOkU b = true →
      (sendUnfurlEvent cfg marshalU newRequestOkU doCallU ev imagePath dashboardTitle).1 =
        [buildUnfurlPayload cfg ev imagePath dashboardTitle]) := by
  constructor
  · have h := buildUnfurls_acc dashboardTitle (getImageURL cfg (filepathBase imagePath))
      ev.Event.Links [] (fun l _ => rfl) hnd
    simpa [buildUnfurlPayload, buildUnfurls] using h
  · intro b hm hn
    unfold sendUnfurlEvent
    rw [hm]
    simp only [hn, if_true]
    cases hd : doCallU (buildUnfurlPayload cfg ev imagePath dashboardTitle) with
    | none => simp
    | some v =>
      obtain ⟨readOk, body⟩ := v
      cases readOk <;> simp

/-- Witness for C7: a concrete two-link event produces a two-entry mapping
keyed by the two URLs, and the constructed payload is what gets posted. -/
theorem unfurlMapping_spec_witness :
    (buildUnfurlPayload exCfg
        (EventPayload.mk "" "" ""
          (Event.mk "link_shared" "U1" "C1" "1.2"
            [Link.mk "http://h/d/u1/s" "h", Link.mk "http://h/d/u2/t" "h"]
            "conversations_history" "" false "")
          "event_callback" "Ev5" 0 [] false "" "")
        "/tmp/img.png" "T").Unfurls =
      ([Link.mk "http://h/d/u1/s" "h", Link.mk "http://h/d/u2/t" "h"]).map
        (fun link => (link.URL,
          Unfurl.mk (unfurlBlocks "T"
            (getImageURL exCfg (filepathBase "/tmp/img.png")) link.URL))) ∧
    (sendUnfurlEvent exCfg (fun _ => some "{}") (fun _ => true)
        (fun _ => some (true, "ok"))
        (EventPayload.mk "" "" ""
          (Event.mk "link_shared" "U1" "C1" "1.2"
            [Link.mk "http://h/d/u1/s" "h", Link.mk "http://h/d/u2/t" "h"]
            "conversations_history" "" false "")
          "event_callback" "Ev5" 0 [] false "" "")
        "/tmp/img.png" "T").1 =
      [buildUnfurlPayload exCfg
        (EventPayload.mk "" "" ""
          (Event.mk "link_shared" "U1" "C1" "1.2"
            [Link.mk "http://h/d/u1/s" "h", Link.mk "http://h/d/u2/t" "h"]
            "conversations_history" "" false "")
          "event_callback" "Ev5" 0 [] false "" "")
        "/tmp/img.png" "T"] := by
  have h := unfurlMapping_spec exCfg (fun _ => some "{}") (fun _ => true)
    (fun _ => some (true, "ok"))
    (EventPayload.mk "" "" ""
      (Event.mk "link_shared" "U1" "C1" "1.2"
        [Link.mk "http://h/d/u1/s" "h", Link.mk "http://h/d/u2/t" "h"]
        "conversations_history" "" false "")
      "event_callback" "Ev5" 0 [] false "" "")
    "/tmp/img.png" "T" (by decide)
  exact ⟨h.1, h.2 "{}" rfl rfl⟩

/-- Claim C6: for a qualifying link-shared event (with at least one link),
an empty extracted render path, a failed dashboard fetch, or a failed render
each abort the orchestrator without any `chat.unfurl` call; and whenever
request construction succeeds (as it always does for the fixed endpoint),
the orchestrator finishes without propagating any failure — every error of
any step ends in the `done` outcome. -/
theorem unfurlAbort_spec (cfg : Cfg)
    (getDashboard : String → Except String Dashboard)
    (renderService : RenderOpts → Except String RenderResult)
    (marshalU : UnfurlEventPayload → Option String)
    (newRequestOkU : String → Bool)
    (doCallU : UnfurlEventPayload → Option (Bool × String))
    (ev : EventPayload) (l : Link) (rest : List Link)
    (hlinks : ev.Event.Links = l :: rest) :
    ((extractURLInfo l.URL).1 = "" →
      handleLinkSharedEvent cfg getDashboard renderService marshalU newRequestOkU
        doCallU ev = ([], .done)) ∧
    (∀ e, getDashboard (extractURLInfo l.URL).2 = .error e →
      (extractURLInfo l.URL).1 ≠ "" →
      handleLinkSharedEvent cfg getDashboard renderService marshalU newRequestOkU
        doCallU ev = ([], .done)) ∧
    (∀ d e, getDashboard (extractURLInfo l.URL).2 = .ok d →
      renderDashboard cfg renderService (extractURLInfo l.URL).1 = .error e →
      (extractURLInfo l.URL).1 ≠ "" →
      handleLinkSharedEvent cfg getDashboard renderService marshalU newRequestOkU
        doCallU ev = ([], .done)) ∧
    ((∀ s, newRequestOkU s = true) →
      (handleLinkSharedEvent cfg getDashboard renderService marshalU newRequestOkU
        doCallU ev).2 = .done) := by
  refine ⟨?_, ?_, ?_, ?_⟩
  · intro he
    simp [handleLinkSharedEvent, hlinks, he]
  · intro e hgd he
    simp [handleLinkSharedEvent, hlinks, he, hgd]
  · intro d e hgd hrender he
    simp [handleLinkSharedEvent, hlinks, he, hgd, hrender]
  · intro hnok
    by_cases he : (extractURLInfo l.URL).1 = ""
    · simp [handleLinkSharedEvent, hlinks, he]
    · cases hgd : getDashboard (extractURLInfo l.URL).2 with
      | error e => simp [handleLinkSharedEvent, hlinks, he, hgd]
      | ok d =>
        cases hrender : renderDashboard cfg renderService (extractURLInfo l.URL).1 with
        | error e => simp [handleLinkSharedEvent, hlinks, he, hgd, hrender]
        | ok imagePath =>
          have hnp := sendUnfurl_no_panic cfg marshalU newRequestOkU doCallU ev
            imagePath d.Title hnok
          rcases hSE : sendUnfurlEvent cfg marshalU newRequestOkU doCallU ev
            imagePath d.Title with ⟨calls, res⟩
          rw [hSE] at hnp
          cases res with
          | ok => simp [handleLinkSharedEvent, hlinks, he, hgd, hrender, hSE]
          | err m => simp [handleLinkSharedEvent, hlinks, he, hgd, hrender, hSE]
          | panicked => exact absurd rfl hnp

/-- Witness for C6: concretely, a link without a dashboard segment aborts
with no call, a failing fetch aborts with no call, a failing render aborts
with no call, and with all oracles total the orchestrator finishes `done`. -/
theorem unfurlAbort_spec_witness :
    handleLinkSharedEvent exCfg (fun _ => Except.ok (Dashboard.mk "D"))
      (fun _ => Except.ok (RenderResult.mk "/tmp/img.png"))
      (fun _ => some "{}") (fun _ => true) (fun _ => some (true, "ok"))
      (EventPayload.mk "" "" ""
        (Event.mk "link_shared" "U1" "C1" "1.2" [Link.mk "http://h/nodash" "h"]
          "conversations_history" "" false "")
        "event_callback" "Ev6" 0 [] false "" "") = ([], .done) ∧
    handleLinkSharedEvent exCfg (fun _ => Except.error "not found")
      (fun _ => Except.ok (RenderResult.mk "/tmp/img.png"))
      (fun _ => some "{}") (fun _ => true) (fun _ => some (true, "ok"))
      exPayload = ([], .done) ∧
    handleLinkSharedEvent exCfg (fun _ => Except.ok (Dashboard.mk "D"))
      (fun _ => Except.error "render timeout")
      (fun _ => some "{}") (fun _ => true) (fun _ => some (true, "ok"))
      exPayload = ([], .done) ∧
    (handleLinkSharedEvent exCfg (fun _ => Except.ok (Dashboard.mk "D"))
      (fun _ => Except.ok (RenderResult.mk "/tmp/img.png"))
      (fun _ => some "{}") (fun _ => true) (fun _ => some (true, "ok"))
      exPayload).2 = .done := by
  refine ⟨?_, ?_, ?_, ?_⟩
  · exact (unfurlAbort_spec exCfg (fun _ => Except.ok (Dashboard.mk "D"))
      (fun _ => Except.ok (RenderResult.mk "/tmp/img.png"))
      (fun _ => some "{}") (fun _ => true) (fun _ => some (true, "ok"))
      (EventPayload.mk "" "" ""
        (Event.mk "link_shared" "U1" "C1" "1.2" [Link.mk "http://h/nodash" "h"]
          "conversations_history" "" false "")
        "event_callback" "Ev6" 0 [] false "" "")
      (Link.mk "http://h/nodash" "h") [] rfl).1 (by decide)
  · exact (unfurlAbort_spec exCfg (fun _ => Except.error "not found")
      (fun _ => Except.ok (RenderResult.mk "/tmp/img.png"))
      (fun _ => some "{}") (fun _ => true) (fun _ => some (true, "ok"))
      exPayload exLink [] rfl).2.1 "not found" rfl (by decide)
  · exact (unfurlAbort_spec exCfg (fun _ => Except.ok (Dashboard.mk "D"))
      (fun _ => Except.error "render timeout")
      (fun _ => some "{}") (fun _ => true) (fun _ => some (true, "ok"))
      exPayload exLink [] rfl).2.2.1 (Dashboard.mk "D") "render timeout" rfl rfl (by decide)
  · exact (unfurlAbort_spec exCfg (fun _ => Except.ok (Dashboard.mk "D"))
      (fun _ => Except.ok (RenderResult.mk "/tmp/img.png"))
      (fun _ => some "{}") (fun _ => true) (fun _ => some (true, "ok"))
      exPayload exLink [] rfl).2.2.2 (fun _ => rfl)

/-- Claim C9: the dispatcher classifies a `link_shared` event from
`conversations_history` as qualifying without inspecting its links, and the
unfurl path then indexes `Links[0]` unguarded — on an event with an empty
links list the embedding faults, so non-emptiness of the links list is a
required precondition that the code never checks. -/
theorem linksIndex_unguarded (cfg : Cfg)
    (getDashboard : String → Except String Dashboard)
    (renderService : RenderOpts → Except String RenderResult)
    (marshalU : UnfurlEventPayload → Option String)
    (newRequestOkU : String → Bool)
    (doCallU : UnfurlEventPayload → Option (Bool × String))
    (p : EventPayload)
    (hlinks : p.Event.Links = [])
    (ht : p.Type' = "event_callback") (he : p.Event.Type' = "link_shared")
    (hsrc : p.Event.Source = "conversations_history") :
    AcknowledgeSlackEvent (.ok p) = (.emptyResp 200, some p) ∧
    handleLinkSharedEvent cfg getDashboard renderService marshalU newRequestOkU
      doCallU p = ([], .panicked) := by
  constructor
  · have h1 : p.Type' ≠ "url_verification" := by rw [ht]; decide
    simp [AcknowledgeSlackEvent, h1, ht, he, hsrc]
  · simp [handleLinkSharedEvent, hlinks]

/-- Witness for C9: a concrete qualifying payload with no links is scheduled
by the dispatcher and makes the unfurl path fault. -/
theorem linksIndex_unguarded_witness :
    AcknowledgeSlackEvent (.ok exPayloadNoLinks) = (.emptyResp 200, some exPayloadNoLinks) ∧
    handleLinkSharedEvent exCfg (fun _ => Except.ok (Dashboard.mk "D"))
      (fun _ => Except.ok (RenderResult.mk "/tmp/img.png"))
      (fun _ => some "{}") (fun _ => true) (fun _ => some (true, "ok"))
      exPayloadNoLinks = ([], .panicked) :=
  linksIndex_unguarded exCfg (fun _ => Except.ok (Dashboard.mk "D"))
    (fun _ => Except.ok (RenderResult.mk "/tmp/img.png"))
    (fun _ => some "{}") (fun _ => true) (fun _ => some (true, "ok"))
    exPayloadNoLinks rfl rfl rfl rfl

end GrafanaSlack
